import Mathlib

/-!
Shallow embedding of the CHPP application-layer dispatcher (chpp/app.c).

The datagram buffer is modelled as a `List Nat` of the readable bytes of the
receive buffer (each byte < 256 for well-formed inputs); `len` is the datagram
length reported by the transport layer and may be smaller than the number of
readable bytes. Observable effects (log lines, handler dispatches, the
transport error enqueue, the processing-done callback, and each call to the
registry lookup `chppServiceOfHandle`) are recorded as an event trace.
Dereferencing an unregistered service pointer, reading a byte outside the
readable buffer, and using the return value of a function whose control fell
off the end are modelled as the undefined-behavior outcome `ChppOutcome.ub`,
which truncates the run.
-/

/-- Modelled from the spec: handle value for non-addressed control traffic
(`CHPP_HANDLE_NONE`, spec section 3: "NONE (0, non-addressed control
traffic)"); the numeric constant lives in chpp/app.h which is not part of the
sources. -/
def CHPP_HANDLE_NONE : Nat := 0

/-- Modelled from the spec: the predefined loopback handle
(`CHPP_HANDLE_LOOPBACK` from chpp/app.h). The spec fixes only that it is a
predefined handle distinct from NONE and discovery and below the negotiated
range start; the concrete value 1 is a modelling choice. -/
def CHPP_HANDLE_LOOPBACK : Nat := 1

/-- Modelled from the spec: the predefined discovery handle
(`CHPP_HANDLE_DISCOVERY` from chpp/app.h). The spec fixes only that it is a
predefined handle distinct from NONE and loopback and below the negotiated
range start; the concrete value 15 is a modelling choice. -/
def CHPP_HANDLE_DISCOVERY : Nat := 15

/-- Modelled from the spec: the fixed threshold at which the negotiated handle
range starts (`CHPP_HANDLE_NEGOTIATED_RANGE_START` from chpp/app.h). The
concrete value 16 is a modelling choice consistent with the spec's partition
of the 8-bit handle space. -/
def CHPP_HANDLE_NEGOTIATED_RANGE_START : Nat := 16

/-- Modelled from the spec: message type Client Request
(`CHPP_MESSAGE_TYPE_CLIENT_REQUEST` from chpp/app.h); the spec fixes four
distinct variants, the numeric values are a modelling choice. -/
def CHPP_MESSAGE_TYPE_CLIENT_REQUEST : Nat := 0

/-- Modelled from the spec: message type Client Notification
(`CHPP_MESSAGE_TYPE_CLIENT_NOTIFICATION` from chpp/app.h). -/
def CHPP_MESSAGE_TYPE_CLIENT_NOTIFICATION : Nat := 1

/-- Modelled from the spec: message type Service Response
(`CHPP_MESSAGE_TYPE_SERVICE_RESPONSE` from chpp/app.h). -/
def CHPP_MESSAGE_TYPE_SERVICE_RESPONSE : Nat := 2

/-- Modelled from the spec: message type Service Notification
(`CHPP_MESSAGE_TYPE_SERVICE_NOTIFICATION` from chpp/app.h). -/
def CHPP_MESSAGE_TYPE_SERVICE_NOTIFICATION : Nat := 3

/-- Modelled from the spec: the application-layer transport error code
(`CHPP_TRANSPORT_ERROR_APPLAYER` from chpp/transport.h); the value is opaque
to app.c, 6 is a modelling choice. -/
def CHPP_TRANSPORT_ERROR_APPLAYER : Nat := 6

/-- Modelled from the spec: the datagram header consists of the fields handle
(1 byte), type (1 byte) and transaction (1 byte), in that order at the front
of every datagram (spec section 3); `struct ChppAppHeader` itself lives in
chpp/app.h. Hence its total size is 3. -/
def chppAppHeaderLen : Nat := 3

/-- SIZE_MAX of the C build, taken as the 64-bit value. Used by
`chppDatagramLenIsOk` as the initial, unsatisfiable minimum length. -/
def sizeMax : Nat := 2 ^ 64 - 1

/-- One registered service descriptor (`struct ChppService`, fields used by
app.c). Dispatcher function pointers are modelled as `Option Nat`: `none` is a
NULL pointer, `some f` an opaque function identity `f`. -/
structure ChppService where
  minLength : Nat
  requestDispatchFunctionPtr : Option Nat
  notificationDispatchFunctionPtr : Option Nat
  deriving DecidableEq, Repr

/-- The application-layer state (`struct ChppAppState`, fields used by app.c).
`transportContext` is an opaque identity for the associated transport context.
`registeredServices` is the registry array of service pointers: `none` models
a NULL (unregistered) slot, and indices beyond the end of the list model
reads past the array, which yield no valid service either. -/
structure ChppAppState where
  transportContext : Nat
  registeredServiceCount : Nat
  registeredServices : List (Option ChppService)
  deriving DecidableEq, Repr

/-- Observable events of a dispatcher run: each log line of app.c (with the
values it formats), each external handler invocation, the transport error
enqueue, the processing-done callback, and each call to the registry lookup
`chppServiceOfHandle`. -/
inductive ChppEvent where
  | logInvalidPredefinedClientRequestHandle (handle : Nat)
  | logInvalidPredefinedServiceResponseHandle (handle : Nat)
  | logNoClientNotificationSupport (handle : Nat)
  | logNoServiceNotificationSupport (handle : Nat)
  | logInvalidPredefinedHandle (handle : Nat)
  | logDatagramTooShort (handle : Nat) (len : Nat)
  | logUnknownTypeNegotiated (ty : Nat) (handle : Nat)
  | logInvalidHandle (handle : Nat) (len : Nat) (ty : Nat) (transaction : Nat)
  | logUnknownTypePredefined (ty : Nat) (handle : Nat) (len : Nat) (transaction : Nat)
  | logUnsupportedRxType (handle : Nat) (ty : Nat)
  | enqueueTxErrorDatagram (transportContext : Nat) (errorCode : Nat)
  | serviceLookup (handle : Nat)
  | dispatchNonHandle (st : ChppAppState) (buf : List Nat) (len : Nat)
  | dispatchLoopbackClientRequest (st : ChppAppState) (buf : List Nat) (len : Nat)
  | dispatchDiscoveryClientRequest (st : ChppAppState) (buf : List Nat) (len : Nat)
  | dispatchDiscoveryClient (st : ChppAppState) (buf : List Nat) (len : Nat)
  | dispatchNegotiated (f : Nat) (st : ChppAppState) (buf : List Nat) (len : Nat)
  | appProcessDoneCb (transportContext : Nat) (buf : List Nat)
  deriving DecidableEq, Repr

/-- Outcome of a run: completed normally, or hit undefined behavior. -/
inductive ChppOutcome where
  | ok
  | ub
  deriving DecidableEq, Repr

/-- chppServiceOfHandle (app.c lines 251 to 255): direct offset index into
`registeredServices` with `handle - CHPP_HANDLE_NEGOTIATED_RANGE_START`,
without any bounds check. The returned pointer is `none` when the slot is
unregistered (NULL) or the index is past the array. -/
def chppServiceOfHandle (appContext : ChppAppState) (handle : Nat) :
    Option ChppService :=
  appContext.registeredServices.getD
    (handle - CHPP_HANDLE_NEGOTIATED_RANGE_START) none

/-- The predefined-handle switch of chppDatagramLenIsOk (app.c lines 167 to
183): yields the log events of the switch and the resulting minimum length.
minLen starts at SIZE_MAX and the default case only logs. -/
def chppPredefinedMinLen (handle : Nat) : List ChppEvent × Nat :=
  if handle = CHPP_HANDLE_NONE then ([], 1)
  else if handle = CHPP_HANDLE_LOOPBACK then ([], 2)
  else if handle = CHPP_HANDLE_DISCOVERY then ([], chppAppHeaderLen)
  else ([ChppEvent.logInvalidPredefinedHandle handle], sizeMax)

/-- chppDatagramLenIsOk (app.c lines 160 to 196). Returns the emitted events
and `some (len is ok)`; for a handle in the negotiated range it dereferences
`chppServiceOfHandle(context, handle)->minLength` with no validity check, so
an unregistered slot yields `none` (undefined behavior). -/
def chppDatagramLenIsOk (context : ChppAppState) (handle len : Nat) :
    List ChppEvent × Option Bool :=
  if handle < CHPP_HANDLE_NEGOTIATED_RANGE_START then
    if len < (chppPredefinedMinLen handle).2 then
      ((chppPredefinedMinLen handle).1 ++
        [ChppEvent.logDatagramTooShort handle len], some false)
    else ((chppPredefinedMinLen handle).1, some true)
  else
    match chppServiceOfHandle context handle with
    | none => ([ChppEvent.serviceLookup handle], none)
    | some svc =>
      if len < svc.minLength then
        ([ChppEvent.serviceLookup handle,
          ChppEvent.logDatagramTooShort handle len], some false)
      else ([ChppEvent.serviceLookup handle], some true)

/-- chppGetDispatchFunction (app.c lines 210 to 240). Returns the emitted
events and the returned dispatch pointer: `some (some f)` a non-NULL
dispatcher, `some none` a NULL return, and `none` undefined behavior (either
the dereference of an unregistered service slot, or the default case, which
logs, enqueues a transport error, and then falls off the end of a
value-returning function). -/
def chppGetDispatchFunction (context : ChppAppState) (handle ty : Nat) :
    List ChppEvent × Option (Option Nat) :=
  if ty = CHPP_MESSAGE_TYPE_CLIENT_REQUEST then
    ([ChppEvent.serviceLookup handle],
      match chppServiceOfHandle context handle with
      | none => none
      | some svc => some svc.requestDispatchFunctionPtr)
  else if ty = CHPP_MESSAGE_TYPE_SERVICE_RESPONSE then ([], some none)
  else if ty = CHPP_MESSAGE_TYPE_CLIENT_NOTIFICATION then
    ([ChppEvent.serviceLookup handle],
      match chppServiceOfHandle context handle with
      | none => none
      | some svc => some svc.notificationDispatchFunctionPtr)
  else if ty = CHPP_MESSAGE_TYPE_SERVICE_NOTIFICATION then ([], some none)
  else
    ([ChppEvent.logUnknownTypeNegotiated ty handle,
      ChppEvent.enqueueTxErrorDatagram context.transportContext
        CHPP_TRANSPORT_ERROR_APPLAYER], none)

/-- chppProcessPredefinedClientRequest (app.c lines 59 to 78): switch on the
handle byte re-read from the buffer. -/
def chppProcessPredefinedClientRequest (context : ChppAppState)
    (buf : List Nat) (len : Nat) : List ChppEvent × ChppOutcome :=
  match buf with
  | [] => ([], ChppOutcome.ub)
  | h :: _ =>
    if h = CHPP_HANDLE_LOOPBACK then
      ([ChppEvent.dispatchLoopbackClientRequest context buf len], ChppOutcome.ok)
    else if h = CHPP_HANDLE_DISCOVERY then
      ([ChppEvent.dispatchDiscoveryClientRequest context buf len], ChppOutcome.ok)
    else
      ([ChppEvent.logInvalidPredefinedClientRequestHandle h], ChppOutcome.ok)

/-- chppProcessPredefinedServiceResponse (app.c lines 88 to 107): the loopback
case is an empty TODO stub, discovery dispatches to the discovery client. -/
def chppProcessPredefinedServiceResponse (context : ChppAppState)
    (buf : List Nat) (len : Nat) : List ChppEvent × ChppOutcome :=
  match buf with
  | [] => ([], ChppOutcome.ub)
  | h :: _ =>
    if h = CHPP_HANDLE_LOOPBACK then ([], ChppOutcome.ok)
    else if h = CHPP_HANDLE_DISCOVERY then
      ([ChppEvent.dispatchDiscoveryClient context buf len], ChppOutcome.ok)
    else
      ([ChppEvent.logInvalidPredefinedServiceResponseHandle h], ChppOutcome.ok)

/-- chppProcessPredefinedClientNotification (app.c lines 117 to 128): always
logs that the handle does not support client notifications. -/
def chppProcessPredefinedClientNotification (context : ChppAppState)
    (buf : List Nat) (len : Nat) : List ChppEvent × ChppOutcome :=
  match buf with
  | [] => ([], ChppOutcome.ub)
  | h :: _ => ([ChppEvent.logNoClientNotificationSupport h], ChppOutcome.ok)

/-- chppProcessPredefinedServiceNotification (app.c lines 137 to 148): always
logs that the handle does not support service notifications. -/
def chppProcessPredefinedServiceNotification (context : ChppAppState)
    (buf : List Nat) (len : Nat) : List ChppEvent × ChppOutcome :=
  match buf with
  | [] => ([], ChppOutcome.ub)
  | h :: _ => ([ChppEvent.logNoServiceNotificationSupport h], ChppOutcome.ok)

/-- The body of chppProcessRxDatagram (app.c lines 283 to 341): everything
before the final chppAppProcessDoneCb call. Reads the handle byte (buf[0])
unconditionally, runs the length validator with it, and on success classifies
the handle exactly in the order of the source. -/
def chppProcessRxDatagramBody (context : ChppAppState) (buf : List Nat)
    (len : Nat) : List ChppEvent × ChppOutcome :=
  match buf[0]? with
  | none => ([], ChppOutcome.ub)
  | some handle =>
    match (chppDatagramLenIsOk context handle len).2 with
    | none => ((chppDatagramLenIsOk context handle len).1, ChppOutcome.ub)
    | some false => ((chppDatagramLenIsOk context handle len).1, ChppOutcome.ok)
    | some true =>
      if context.registeredServiceCount + CHPP_HANDLE_NEGOTIATED_RANGE_START
          ≤ handle then
        match buf[1]?, buf[2]? with
        | some ty, some tr =>
          ((chppDatagramLenIsOk context handle len).1 ++
            [ChppEvent.logInvalidHandle handle len ty tr], ChppOutcome.ok)
        | _, _ => ((chppDatagramLenIsOk context handle len).1, ChppOutcome.ub)
      else if handle = CHPP_HANDLE_NONE then
        ((chppDatagramLenIsOk context handle len).1 ++
          [ChppEvent.dispatchNonHandle context buf len], ChppOutcome.ok)
      else if handle < CHPP_HANDLE_NEGOTIATED_RANGE_START then
        match buf[1]? with
        | none => ((chppDatagramLenIsOk context handle len).1, ChppOutcome.ub)
        | some ty =>
          if ty = CHPP_MESSAGE_TYPE_CLIENT_REQUEST then
            ((chppDatagramLenIsOk context handle len).1 ++
              (chppProcessPredefinedClientRequest context buf len).1,
              (chppProcessPredefinedClientRequest context buf len).2)
          else if ty = CHPP_MESSAGE_TYPE_CLIENT_NOTIFICATION then
            ((chppDatagramLenIsOk context handle len).1 ++
              (chppProcessPredefinedClientNotification context buf len).1,
              (chppProcessPredefinedClientNotification context buf len).2)
          else if ty = CHPP_MESSAGE_TYPE_SERVICE_RESPONSE then
            ((chppDatagramLenIsOk context handle len).1 ++
              (chppProcessPredefinedServiceResponse context buf len).1,
              (chppProcessPredefinedServiceResponse context buf len).2)
          else if ty = CHPP_MESSAGE_TYPE_SERVICE_NOTIFICATION then
            ((chppDatagramLenIsOk context handle len).1 ++
              (chppProcessPredefinedServiceNotification context buf len).1,
              (chppProcessPredefinedServiceNotification context buf len).2)
          else
            match buf[2]? with
            | none => ((chppDatagramLenIsOk context handle len).1, ChppOutcome.ub)
            | some tr =>
              ((chppDatagramLenIsOk context handle len).1 ++
                [ChppEvent.logUnknownTypePredefined ty handle len tr,
                ChppEvent.enqueueTxErrorDatagram context.transportContext
                  CHPP_TRANSPORT_ERROR_APPLAYER], ChppOutcome.ok)
      else
        match buf[1]? with
        | none => ((chppDatagramLenIsOk context handle len).1, ChppOutcome.ub)
        | some ty =>
          match (chppGetDispatchFunction context handle ty).2 with
          | none =>
            ((chppDatagramLenIsOk context handle len).1 ++
              (chppGetDispatchFunction context handle ty).1, ChppOutcome.ub)
          | some none =>
            ((chppDatagramLenIsOk context handle len).1 ++
              (chppGetDispatchFunction context handle ty).1 ++
              [ChppEvent.logUnsupportedRxType handle ty], ChppOutcome.ok)
          | some (some f) =>
            ((chppDatagramLenIsOk context handle len).1 ++
              (chppGetDispatchFunction context handle ty).1 ++
              [ChppEvent.dispatchNegotiated f context buf len], ChppOutcome.ok)

/-- chppProcessRxDatagram (app.c lines 281 to 344): runs the body, then the
unconditional chppAppProcessDoneCb(context->transportContext, buf) at line
343. A run that hit undefined behavior never reaches line 343. -/
def chppProcessRxDatagram (context : ChppAppState) (buf : List Nat)
    (len : Nat) : List ChppEvent × ChppOutcome :=
  match (chppProcessRxDatagramBody context buf len).2 with
  | ChppOutcome.ub => (chppProcessRxDatagramBody context buf len)
  | ChppOutcome.ok =>
    ((chppProcessRxDatagramBody context buf len).1 ++
      [ChppEvent.appProcessDoneCb context.transportContext buf],
      ChppOutcome.ok)

/-- True exactly on the processing-done callback event. -/
def isDoneCbEvent : ChppEvent → Bool
  | ChppEvent.appProcessDoneCb _ _ => true
  | _ => false

/-- True exactly on the transport error enqueue event. -/
def isEnqueueEvent : ChppEvent → Bool
  | ChppEvent.enqueueTxErrorDatagram _ _ => true
  | _ => false

/-- True exactly on the events that invoke a handler or dispatcher. -/
def isDispatchEvent : ChppEvent → Bool
  | ChppEvent.dispatchNonHandle _ _ _ => true
  | ChppEvent.dispatchLoopbackClientRequest _ _ _ => true
  | ChppEvent.dispatchDiscoveryClientRequest _ _ _ => true
  | ChppEvent.dispatchDiscoveryClient _ _ _ => true
  | ChppEvent.dispatchNegotiated _ _ _ _ => true
  | _ => false

/-- One lowercase hexadecimal digit character for a value below 16, as
produced by the %02x conversion of sprintf. -/
def hexDigit (n : Nat) : Char :=
  if n < 10 then Char.ofNat (48 + n) else Char.ofNat (87 + n)

/-- The two lowercase hexadecimal digit characters of the %02x conversion of
sprintf for one byte value. -/
def hex2 (b : Nat) : List Char :=
  [hexDigit (b / 16), hexDigit (b % 16)]

/-- chppUuidToStr (app.c lines 346 to 354): formats a 16-byte identifier as
the dashed lowercase hexadecimal string
xxxxxxxx-xxxx-xxxx-xxxx-xxxxxxxxxxxx via sprintf with sixteen %02x
conversions over uuid[0] through uuid[15] in order. The C reads exactly the
first 16 bytes of the input array; the model reads list entries 0 to 15. -/
def chppUuidToStr (uuid : List Nat) : String :=
  String.mk
    (hex2 (uuid.getD 0 0) ++ hex2 (uuid.getD 1 0) ++ hex2 (uuid.getD 2 0) ++
      hex2 (uuid.getD 3 0) ++ [Char.ofNat 45] ++
      hex2 (uuid.getD 4 0) ++ hex2 (uuid.getD 5 0) ++ [Char.ofNat 45] ++
      hex2 (uuid.getD 6 0) ++ hex2 (uuid.getD 7 0) ++ [Char.ofNat 45] ++
      hex2 (uuid.getD 8 0) ++ hex2 (uuid.getD 9 0) ++ [Char.ofNat 45] ++
      hex2 (uuid.getD 10 0) ++ hex2 (uuid.getD 11 0) ++
      hex2 (uuid.getD 12 0) ++ hex2 (uuid.getD 13 0) ++
      hex2 (uuid.getD 14 0) ++ hex2 (uuid.getD 15 0))

/-- Value of one hexadecimal digit character, lowercase letters only;
inverse of hexDigit on values below 16. -/
def hexVal (c : Char) : Option Nat :=
  if 48 ≤ c.toNat ∧ c.toNat ≤ 57 then some (c.toNat - 48)
  else if 97 ≤ c.toNat ∧ c.toNat ≤ 102 then some (c.toNat - 87)
  else none

/-- Byte value of a pair of hexadecimal digit characters. -/
def hexPairVal (x y : Char) : Option Nat :=
  match hexVal x, hexVal y with
  | some a, some b => some (16 * a + b)
  | _, _ => none

/-- Reference decoder for the dashed UUID string format: accepts exactly 36
characters grouped 8-4-4-4-12 with dashes at positions 8, 13, 18 and 23, and
recovers the 16 byte values in order. Used to state that chppUuidToStr is
lossless. -/
def uuidFromStr (s : String) : Option (List Nat) :=
  match s.data with
  | a0 :: a1 :: a2 :: a3 :: a4 :: a5 :: a6 :: a7 :: d1 ::
    b0 :: b1 :: b2 :: b3 :: d2 :: c0 :: c1 :: c2 :: c3 :: d3 ::
    e0 :: e1 :: e2 :: e3 :: d4 :: f0 :: f1 :: f2 :: f3 :: f4 :: f5 ::
    f6 :: f7 :: f8 :: f9 :: f10 :: f11 :: [] =>
    if d1 = Char.ofNat 45 ∧ d2 = Char.ofNat 45 ∧ d3 = Char.ofNat 45 ∧
        d4 = Char.ofNat 45 then
      match hexPairVal a0 a1, hexPairVal a2 a3, hexPairVal a4 a5,
          hexPairVal a6 a7, hexPairVal b0 b1, hexPairVal b2 b3,
          hexPairVal c0 c1, hexPairVal c2 c3, hexPairVal e0 e1,
          hexPairVal e2 e3, hexPairVal f0 f1, hexPairVal f2 f3,
          hexPairVal f4 f5, hexPairVal f6 f7, hexPairVal f8 f9,
          hexPairVal f10 f11 with
      | some v0, some v1, some v2, some v3, some v4, some v5, some v6,
        some v7, some v8, some v9, some v10, some v11, some v12, some v13,
        some v14, some v15 =>
        some [v0, v1, v2, v3, v4, v5, v6, v7, v8, v9, v10, v11, v12, v13,
          v14, v15]
      | _, _, _, _, _, _, _, _, _, _, _, _, _, _, _, _ => none
    else none
  | _ => none

/-- An event emitted by the predefined-handle minimum-length switch is a log
event: never a done callback, a dispatch, or an error enqueue. -/
theorem chppPredefinedMinLen_events (h : Nat) :
    ∀ e ∈ (chppPredefinedMinLen h).1,
      isDoneCbEvent e = false ∧ isDispatchEvent e = false ∧
        isEnqueueEvent e = false := by
  unfold chppPredefinedMinLen
  split_ifs <;> simp [isDoneCbEvent, isDispatchEvent, isEnqueueEvent]

/-- An event emitted by the length validator is a log or registry-lookup
event: never a done callback, a dispatch, or an error enqueue. -/
theorem chppDatagramLenIsOk_events (c : ChppAppState) (h l : Nat) :
    ∀ e ∈ (chppDatagramLenIsOk c h l).1,
      isDoneCbEvent e = false ∧ isDispatchEvent e = false ∧
        isEnqueueEvent e = false := by
  unfold chppDatagramLenIsOk
  split
  · split <;> intro e he <;>
      first
      | exact chppPredefinedMinLen_events h e he
      | · simp only [List.mem_append, List.mem_singleton] at he
          rcases he with he | he
          · exact chppPredefinedMinLen_events h e he
          · subst he
            simp [isDoneCbEvent, isDispatchEvent, isEnqueueEvent]
  · split
    · simp [isDoneCbEvent, isDispatchEvent, isEnqueueEvent]
    · split <;> simp [isDoneCbEvent, isDispatchEvent, isEnqueueEvent]


/-- The events of the length validator contain no done callback. -/
theorem lenIsOk_filter_noDone (c : ChppAppState) (h l : Nat) :
    ((chppDatagramLenIsOk c h l).1).filter isDoneCbEvent = [] := by
  rw [List.filter_eq_nil_iff]
  intro e he
  simp [(chppDatagramLenIsOk_events c h l e he).1]

/-- The events of the dispatch-function selector contain no done callback. -/
theorem gdf_filter_noDone (c : ChppAppState) (h ty : Nat) :
    ((chppGetDispatchFunction c h ty).1).filter isDoneCbEvent = [] := by
  unfold chppGetDispatchFunction
  split_ifs <;> simp [isDoneCbEvent]

/-- The events of the predefined client-request processor contain no done
callback. -/
theorem req_filter_noDone (c : ChppAppState) (buf : List Nat) (len : Nat) :
    ((chppProcessPredefinedClientRequest c buf len).1).filter isDoneCbEvent
      = [] := by
  unfold chppProcessPredefinedClientRequest
  split
  · rfl
  · split_ifs <;> simp [isDoneCbEvent]

/-- The events of the predefined service-response processor contain no done
callback. -/
theorem resp_filter_noDone (c : ChppAppState) (buf : List Nat) (len : Nat) :
    ((chppProcessPredefinedServiceResponse c buf len).1).filter isDoneCbEvent
      = [] := by
  unfold chppProcessPredefinedServiceResponse
  split
  · rfl
  · split_ifs <;> simp [isDoneCbEvent]

/-- The events of the predefined client-notification processor contain no done
callback. -/
theorem cnot_filter_noDone (c : ChppAppState) (buf : List Nat) (len : Nat) :
    ((chppProcessPredefinedClientNotification c buf len).1).filter
      isDoneCbEvent = [] := by
  unfold chppProcessPredefinedClientNotification
  split <;> simp [isDoneCbEvent]

/-- The events of the predefined service-notification processor contain no
done callback. -/
theorem snot_filter_noDone (c : ChppAppState) (buf : List Nat) (len : Nat) :
    ((chppProcessPredefinedServiceNotification c buf len).1).filter
      isDoneCbEvent = [] := by
  unfold chppProcessPredefinedServiceNotification
  split <;> simp [isDoneCbEvent]

/-- No event emitted by the body of chppProcessRxDatagram (app.c lines 283 to
341, everything before line 343) is the done callback event. -/
theorem chppProcessRxDatagramBody_filter_noDone (c : ChppAppState)
    (buf : List Nat) (len : Nat) :
    ((chppProcessRxDatagramBody c buf len).1).filter isDoneCbEvent = [] := by
  unfold chppProcessRxDatagramBody
  repeat' split
  all_goals
    simp [List.filter_append, lenIsOk_filter_noDone, gdf_filter_noDone,
      req_filter_noDone, resp_filter_noDone, cnot_filter_noDone,
      snot_filter_noDone, isDoneCbEvent]

/-- The events of the length validator contain no error enqueue. -/
theorem lenIsOk_filter_noEnqueue (c : ChppAppState) (h l : Nat) :
    ((chppDatagramLenIsOk c h l).1).filter isEnqueueEvent = [] := by
  rw [List.filter_eq_nil_iff]
  intro e he
  simp [(chppDatagramLenIsOk_events c h l e he).2.2]

/-- The events of the length validator contain no handler dispatch. -/
theorem lenIsOk_filter_noDispatch (c : ChppAppState) (h l : Nat) :
    ((chppDatagramLenIsOk c h l).1).filter isDispatchEvent = [] := by
  rw [List.filter_eq_nil_iff]
  intro e he
  simp [(chppDatagramLenIsOk_events c h l e he).2.1]

/-- C2: for every call to chppProcessRxDatagram whose run completes (does not
hit undefined behavior), the completion callback chppAppProcessDoneCb is
invoked exactly once, with the transport context of the application state and
the same buffer that was passed in; this holds on the successful-dispatch,
length-violation, addressing-error, unsupported-type and unknown-type paths
alike. -/
theorem chppClaimC2_doneCbExactlyOnce (st : ChppAppState) (buf : List Nat)
    (len : Nat) (hok : (chppProcessRxDatagram st buf len).2 = ChppOutcome.ok) :
    ((chppProcessRxDatagram st buf len).1).filter isDoneCbEvent
      = [ChppEvent.appProcessDoneCb st.transportContext buf] := by
  rcases hbody : (chppProcessRxDatagramBody st buf len).2 with _ | _
  · unfold chppProcessRxDatagram
    rw [hbody]
    simp [List.filter_append, chppProcessRxDatagramBody_filter_noDone,
      isDoneCbEvent]
  · exfalso
    unfold chppProcessRxDatagram at hok
    rw [hbody] at hok
    simp [hbody] at hok

/-- Witness for C2 at a concrete input: the non-handle datagram [0] of length
1 completes, and its trace holds exactly one done callback, carrying transport
context 3 and the buffer. -/
theorem chppClaimC2_witness :
    (chppProcessRxDatagram ⟨3, 0, []⟩ [0] 1).2 = ChppOutcome.ok ∧
    ((chppProcessRxDatagram ⟨3, 0, []⟩ [0] 1).1).filter isDoneCbEvent
      = [ChppEvent.appProcessDoneCb 3 [0]] :=
  ⟨by decide, chppClaimC2_doneCbExactlyOnce ⟨3, 0, []⟩ [0] 1 (by decide)⟩

/-- C1: with no services registered, a datagram for handle 16 (the first
handle beyond the registered negotiated range) of valid length makes
chppProcessRxDatagram dereference the unregistered registry slot inside the
length validator (undefined behavior), before the addressing-error check at
line 286 ever runs: the run ends with only the registry-lookup event, no
addressing-error log and no completion callback, contradicting the claimed
clean logged drop. -/
theorem chppClaimC1_outOfRangeDerefsRegistry :
    chppProcessRxDatagram ⟨0, 0, []⟩ [16, 0, 0] 6
      = ([ChppEvent.serviceLookup 16], ChppOutcome.ub) := by decide

/-- C3: with one registered service (valid negotiated range is the single
handle 16), processing a datagram for handle 17 calls the registry lookup
chppServiceOfHandle with handle 17 (the serviceLookup event) even though 17
lies outside the valid negotiated range: the lookup is reached from the
length validator before any range check, contradicting the claim. -/
theorem chppClaimC3_lookupWithoutRangeCheck :
    (chppProcessRxDatagram ⟨0, 1, [some ⟨2, some 5, none⟩]⟩ [17, 0, 0] 9).1
      = [ChppEvent.serviceLookup 17]
    ∧ ¬ (17 < CHPP_HANDLE_NEGOTIATED_RANGE_START + 1) := by decide

/-- C4 counterexample: the datagram [0, 9, 0] of length 2 has message type 9,
outside the four defined variants, and passes the length check for handle
NONE, yet chppProcessRxDatagram invokes the non-handle dispatch handler and
makes no transport error enqueue call, contradicting the claim as stated. -/
theorem chppClaimC4_counterexample :
    (ChppEvent.dispatchNonHandle ⟨0, 0, []⟩ [0, 9, 0] 2)
      ∈ (chppProcessRxDatagram ⟨0, 0, []⟩ [0, 9, 0] 2).1
    ∧ ((chppProcessRxDatagram ⟨0, 0, []⟩ [0, 9, 0] 2).1).filter isEnqueueEvent
      = [] := by decide

/-- The predefined minimum-length switch on a handle that is none of NONE,
loopback, discovery: logs the invalid-predefined-handle error and leaves the
minimum at SIZE_MAX. -/
theorem chppPredefinedMinLen_default (h : Nat) (h0 : h ≠ CHPP_HANDLE_NONE)
    (h1 : h ≠ CHPP_HANDLE_LOOPBACK) (h15 : h ≠ CHPP_HANDLE_DISCOVERY) :
    chppPredefinedMinLen h
      = ([ChppEvent.logInvalidPredefinedHandle h], sizeMax) := by
  unfold chppPredefinedMinLen
  rw [if_neg h0, if_neg h1, if_neg h15]

/-- C4 amended: for a datagram addressed to a predefined handle other than
NONE, with a message type outside the four defined variants, that passes the
length check: chppProcessRxDatagram logs the unknown-type error and makes
exactly one transport error enqueue call with the application-layer error
code, and invokes no handler. -/
theorem chppClaimC4_amended (st : ChppAppState) (h ty tr : Nat)
    (rest : List Nat) (len : Nat)
    (hne : h ≠ CHPP_HANDLE_NONE) (hlt : h < CHPP_HANDLE_NEGOTIATED_RANGE_START)
    (ht0 : ty ≠ CHPP_MESSAGE_TYPE_CLIENT_REQUEST)
    (ht1 : ty ≠ CHPP_MESSAGE_TYPE_CLIENT_NOTIFICATION)
    (ht2 : ty ≠ CHPP_MESSAGE_TYPE_SERVICE_RESPONSE)
    (ht3 : ty ≠ CHPP_MESSAGE_TYPE_SERVICE_NOTIFICATION)
    (hlen : (chppDatagramLenIsOk st h len).2 = some true) :
    ((chppProcessRxDatagram st (h :: ty :: tr :: rest) len).1).filter
        isEnqueueEvent
      = [ChppEvent.enqueueTxErrorDatagram st.transportContext
          CHPP_TRANSPORT_ERROR_APPLAYER]
    ∧ ((chppProcessRxDatagram st (h :: ty :: tr :: rest) len).1).filter
        isDispatchEvent = []
    ∧ ChppEvent.logUnknownTypePredefined ty h len tr
        ∈ (chppProcessRxDatagram st (h :: ty :: tr :: rest) len).1 := by
  have hrange : ¬ (st.registeredServiceCount +
      CHPP_HANDLE_NEGOTIATED_RANGE_START ≤ h) := by
    unfold CHPP_HANDLE_NEGOTIATED_RANGE_START at hlt ⊢
    omega
  unfold chppProcessRxDatagram chppProcessRxDatagramBody
  simp only [List.getElem?_cons_zero, List.getElem?_cons_succ, hlen,
    if_neg hrange, if_neg hne, if_pos hlt, if_neg ht0, if_neg ht1, if_neg ht2,
    if_neg ht3]
  simp [List.filter_append, lenIsOk_filter_noEnqueue, lenIsOk_filter_noDispatch,
    isEnqueueEvent, isDispatchEvent]

/-- Witness for C4 amended at a concrete input: handle 1 (loopback), type 9,
length 2, transport context 7. -/
theorem chppClaimC4_amended_witness :
    ((chppProcessRxDatagram ⟨7, 0, []⟩ [1, 9, 0] 2).1).filter isEnqueueEvent
      = [ChppEvent.enqueueTxErrorDatagram 7 CHPP_TRANSPORT_ERROR_APPLAYER]
    ∧ ((chppProcessRxDatagram ⟨7, 0, []⟩ [1, 9, 0] 2).1).filter
        isDispatchEvent = []
    ∧ ChppEvent.logUnknownTypePredefined 9 1 2 0
        ∈ (chppProcessRxDatagram ⟨7, 0, []⟩ [1, 9, 0] 2).1 :=
  chppClaimC4_amended ⟨7, 0, []⟩ 1 9 0 [] 2 (by decide) (by decide) (by decide)
    (by decide) (by decide) (by decide) (by decide)

/-- C5: a datagram addressed to the loopback handle with message type Client
Request is dispatched to the loopback request handler with (context, buffer,
length) when its length is at least 2 (size of handle plus type fields), and
is dropped by the length validator, reaching no handler, when its length is
below 2. -/
theorem chppClaimC5_loopbackClientRequest (st : ChppAppState)
    (rest : List Nat) (len : Nat) :
    (2 ≤ len →
      chppProcessRxDatagram st
          (CHPP_HANDLE_LOOPBACK :: CHPP_MESSAGE_TYPE_CLIENT_REQUEST :: rest)
          len
        = ([ChppEvent.dispatchLoopbackClientRequest st
              (CHPP_HANDLE_LOOPBACK ::
                CHPP_MESSAGE_TYPE_CLIENT_REQUEST :: rest) len,
            ChppEvent.appProcessDoneCb st.transportContext
              (CHPP_HANDLE_LOOPBACK ::
                CHPP_MESSAGE_TYPE_CLIENT_REQUEST :: rest)],
           ChppOutcome.ok))
    ∧ (∀ buf2 len2, buf2[0]? = some CHPP_HANDLE_LOOPBACK → len2 < 2 →
        chppProcessRxDatagram st buf2 len2
          = ([ChppEvent.logDatagramTooShort CHPP_HANDLE_LOOPBACK len2,
              ChppEvent.appProcessDoneCb st.transportContext buf2],
             ChppOutcome.ok)) := by
  constructor
  · intro hlen
    have hnl : ¬ (len < 2) := by omega
    have hr : ¬ (st.registeredServiceCount + 16 ≤ 1) := by omega
    unfold chppProcessRxDatagram chppProcessRxDatagramBody
    simp [chppDatagramLenIsOk, chppPredefinedMinLen,
      chppProcessPredefinedClientRequest, CHPP_HANDLE_NONE,
      CHPP_HANDLE_LOOPBACK, CHPP_HANDLE_DISCOVERY,
      CHPP_HANDLE_NEGOTIATED_RANGE_START, CHPP_MESSAGE_TYPE_CLIENT_REQUEST,
      hnl, hr]
  · intro buf2 len2 hb0 hl2
    unfold chppProcessRxDatagram chppProcessRxDatagramBody
    simp [hb0, chppDatagramLenIsOk, chppPredefinedMinLen, CHPP_HANDLE_NONE,
      CHPP_HANDLE_LOOPBACK, CHPP_HANDLE_DISCOVERY,
      CHPP_HANDLE_NEGOTIATED_RANGE_START, hl2]

/-- Witness for C5 at concrete inputs: loopback request of length 2 is
dispatched; loopback request of length 1 is dropped short of the handler. -/
theorem chppClaimC5_witness :
    chppProcessRxDatagram ⟨0, 0, []⟩ [1, 0, 5] 2
      = ([ChppEvent.dispatchLoopbackClientRequest ⟨0, 0, []⟩ [1, 0, 5] 2,
          ChppEvent.appProcessDoneCb 0 [1, 0, 5]], ChppOutcome.ok)
    ∧ chppProcessRxDatagram ⟨0, 0, []⟩ [1, 0] 1
      = ([ChppEvent.logDatagramTooShort 1 1,
          ChppEvent.appProcessDoneCb 0 [1, 0]], ChppOutcome.ok) :=
  ⟨(chppClaimC5_loopbackClientRequest ⟨0, 0, []⟩ [5] 2).1 (by decide),
   (chppClaimC5_loopbackClientRequest ⟨0, 0, []⟩ [] 1).2 [1, 0] 1 (by decide)
     (by decide)⟩

/-- C6: for a negotiated handle h in the registered range whose registry slot
holds a descriptor with a non-NULL request dispatcher, a Client Request of
length at least the descriptor's declared minimum is dispatched to that
dispatcher with (context, buffer, length); one of length below the minimum is
dropped by the length validator and no dispatcher is invoked. -/
theorem chppClaimC6_negotiatedClientRequest (st : ChppAppState)
    (h f : Nat) (svc : ChppService) (rest : List Nat) (len : Nat)
    (hr1 : CHPP_HANDLE_NEGOTIATED_RANGE_START ≤ h)
    (hr2 : h < CHPP_HANDLE_NEGOTIATED_RANGE_START + st.registeredServiceCount)
    (hsvc : chppServiceOfHandle st h = some svc)
    (hf : svc.requestDispatchFunctionPtr = some f) :
    (svc.minLength ≤ len →
      chppProcessRxDatagram st
          (h :: CHPP_MESSAGE_TYPE_CLIENT_REQUEST :: rest) len
        = ([ChppEvent.serviceLookup h, ChppEvent.serviceLookup h,
            ChppEvent.dispatchNegotiated f st
              (h :: CHPP_MESSAGE_TYPE_CLIENT_REQUEST :: rest) len,
            ChppEvent.appProcessDoneCb st.transportContext
              (h :: CHPP_MESSAGE_TYPE_CLIENT_REQUEST :: rest)],
           ChppOutcome.ok))
    ∧ (len < svc.minLength →
      chppProcessRxDatagram st
          (h :: CHPP_MESSAGE_TYPE_CLIENT_REQUEST :: rest) len
        = ([ChppEvent.serviceLookup h,
            ChppEvent.logDatagramTooShort h len,
            ChppEvent.appProcessDoneCb st.transportContext
              (h :: CHPP_MESSAGE_TYPE_CLIENT_REQUEST :: rest)],
           ChppOutcome.ok)) := by
  have hnp : ¬ (h < CHPP_HANDLE_NEGOTIATED_RANGE_START) := by omega
  have hrr : ¬ (st.registeredServiceCount +
      CHPP_HANDLE_NEGOTIATED_RANGE_START ≤ h) := by omega
  have hne : h ≠ CHPP_HANDLE_NONE := by
    unfold CHPP_HANDLE_NONE
    unfold CHPP_HANDLE_NEGOTIATED_RANGE_START at hr1
    omega
  constructor
  · intro hlen
    have hnl : ¬ (len < svc.minLength) := by omega
    unfold chppProcessRxDatagram chppProcessRxDatagramBody
    simp [chppDatagramLenIsOk, chppGetDispatchFunction,
      CHPP_MESSAGE_TYPE_CLIENT_REQUEST, hsvc, hf, hnl, hnp, hrr, hne]
  · intro hnl
    unfold chppProcessRxDatagram chppProcessRxDatagramBody
    simp [chppDatagramLenIsOk, hsvc, hnl, hnp]

/-- Witness for C6 at a concrete input: one registered service at handle 16
with minimum length 2 and request dispatcher 42; a request of length 3 is
dispatched, one of length 1 is dropped. -/
theorem chppClaimC6_witness :
    chppProcessRxDatagram ⟨0, 1, [some ⟨2, some 42, none⟩]⟩ [16, 0, 0] 3
      = ([ChppEvent.serviceLookup 16, ChppEvent.serviceLookup 16,
          ChppEvent.dispatchNegotiated 42 ⟨0, 1, [some ⟨2, some 42, none⟩]⟩
            [16, 0, 0] 3,
          ChppEvent.appProcessDoneCb 0 [16, 0, 0]], ChppOutcome.ok)
    ∧ chppProcessRxDatagram ⟨0, 1, [some ⟨2, some 42, none⟩]⟩ [16, 0, 0] 1
      = ([ChppEvent.serviceLookup 16, ChppEvent.logDatagramTooShort 16 1,
          ChppEvent.appProcessDoneCb 0 [16, 0, 0]], ChppOutcome.ok) :=
  ⟨(chppClaimC6_negotiatedClientRequest ⟨0, 1, [some ⟨2, some 42, none⟩]⟩
      16 42 ⟨2, some 42, none⟩ [0] 3 (by decide) (by decide) (by decide)
      (by decide)).1 (by decide),
   (chppClaimC6_negotiatedClientRequest ⟨0, 1, [some ⟨2, some 42, none⟩]⟩
      16 42 ⟨2, some 42, none⟩ [0] 1 (by decide) (by decide) (by decide)
      (by decide)).2 (by decide)⟩

/-- C7: for a negotiated handle in the registered range, a datagram of
sufficient length with message type Service Response or Service Notification
is dropped with the does-not-support-Rx-message-type log and no dispatcher is
invoked: the dispatch-function selector returns NULL for these two types. -/
theorem chppClaimC7_negotiatedUnsupportedTypes (st : ChppAppState)
    (h ty : Nat) (svc : ChppService) (rest : List Nat) (len : Nat)
    (hr1 : CHPP_HANDLE_NEGOTIATED_RANGE_START ≤ h)
    (hr2 : h < CHPP_HANDLE_NEGOTIATED_RANGE_START + st.registeredServiceCount)
    (hsvc : chppServiceOfHandle st h = some svc)
    (hty : ty = CHPP_MESSAGE_TYPE_SERVICE_RESPONSE ∨
      ty = CHPP_MESSAGE_TYPE_SERVICE_NOTIFICATION)
    (hlen : svc.minLength ≤ len) :
    chppProcessRxDatagram st (h :: ty :: rest) len
      = ([ChppEvent.serviceLookup h,
          ChppEvent.logUnsupportedRxType h ty,
          ChppEvent.appProcessDoneCb st.transportContext (h :: ty :: rest)],
         ChppOutcome.ok)
    ∧ ((chppProcessRxDatagram st (h :: ty :: rest) len).1).filter
        isDispatchEvent = [] := by
  have hnp : ¬ (h < CHPP_HANDLE_NEGOTIATED_RANGE_START) := by omega
  have hrr : ¬ (st.registeredServiceCount +
      CHPP_HANDLE_NEGOTIATED_RANGE_START ≤ h) := by omega
  have hne : h ≠ CHPP_HANDLE_NONE := by
    unfold CHPP_HANDLE_NONE
    unfold CHPP_HANDLE_NEGOTIATED_RANGE_START at hr1
    omega
  have hnl : ¬ (len < svc.minLength) := by omega
  have hmain : chppProcessRxDatagram st (h :: ty :: rest) len
      = ([ChppEvent.serviceLookup h,
          ChppEvent.logUnsupportedRxType h ty,
          ChppEvent.appProcessDoneCb st.transportContext (h :: ty :: rest)],
         ChppOutcome.ok) := by
    rcases hty with hty | hty <;> subst hty <;>
      unfold chppProcessRxDatagram chppProcessRxDatagramBody <;>
      simp [chppDatagramLenIsOk, chppGetDispatchFunction,
        CHPP_MESSAGE_TYPE_CLIENT_REQUEST, CHPP_MESSAGE_TYPE_CLIENT_NOTIFICATION,
        CHPP_MESSAGE_TYPE_SERVICE_RESPONSE,
        CHPP_MESSAGE_TYPE_SERVICE_NOTIFICATION,
        hsvc, hnl, hnp, hrr, hne]
  refine ⟨hmain, ?_⟩
  rw [hmain]
  simp [isDispatchEvent]

/-- Witness for C7 at a concrete input: one registered service at handle 16,
minimum length 2; a Service Response of length 3 is dropped with the
unsupported-type log and no dispatch. -/
theorem chppClaimC7_witness :
    chppProcessRxDatagram ⟨0, 1, [some ⟨2, some 42, none⟩]⟩ [16, 2, 0] 3
      = ([ChppEvent.serviceLookup 16, ChppEvent.logUnsupportedRxType 16 2,
          ChppEvent.appProcessDoneCb 0 [16, 2, 0]], ChppOutcome.ok)
    ∧ ((chppProcessRxDatagram ⟨0, 1, [some ⟨2, some 42, none⟩]⟩
        [16, 2, 0] 3).1).filter isDispatchEvent = [] :=
  chppClaimC7_negotiatedUnsupportedTypes ⟨0, 1, [some ⟨2, some 42, none⟩]⟩
    16 2 ⟨2, some 42, none⟩ [0] 3 (by decide) (by decide) (by decide)
    (Or.inl (by decide)) (by decide)

/-- C8: a datagram addressed to a handle below the negotiated range start
that is none of NONE, loopback, discovery is logged as an invalid predefined
handle and processed to completion without invoking any handler or
dispatcher, for every message type and length. -/
theorem chppClaimC8_invalidPredefinedHandles (st : ChppAppState)
    (h ty tr : Nat) (rest : List Nat) (len : Nat)
    (h1 : h < CHPP_HANDLE_NEGOTIATED_RANGE_START)
    (h0 : h ≠ CHPP_HANDLE_NONE) (hl : h ≠ CHPP_HANDLE_LOOPBACK)
    (hd : h ≠ CHPP_HANDLE_DISCOVERY) :
    ChppEvent.logInvalidPredefinedHandle h
      ∈ (chppProcessRxDatagram st (h :: ty :: tr :: rest) len).1
    ∧ ((chppProcessRxDatagram st (h :: ty :: tr :: rest) len).1).filter
        isDispatchEvent = []
    ∧ (chppProcessRxDatagram st (h :: ty :: tr :: rest) len).2
        = ChppOutcome.ok := by
  have hrr : ¬ (st.registeredServiceCount +
      CHPP_HANDLE_NEGOTIATED_RANGE_START ≤ h) := by
    unfold CHPP_HANDLE_NEGOTIATED_RANGE_START at h1 ⊢
    omega
  have hpml := chppPredefinedMinLen_default h h0 hl hd
  unfold chppProcessRxDatagram chppProcessRxDatagramBody
  by_cases hls : len < sizeMax
  · simp [chppDatagramLenIsOk, hpml, h1, hls, isDispatchEvent]
  · by_cases t0 : ty = CHPP_MESSAGE_TYPE_CLIENT_REQUEST
    · simp [chppDatagramLenIsOk, hpml, h1, hls, hrr, h0, t0,
        chppProcessPredefinedClientRequest, hl, hd, isDispatchEvent,
        CHPP_MESSAGE_TYPE_CLIENT_REQUEST, CHPP_MESSAGE_TYPE_CLIENT_NOTIFICATION,
        CHPP_MESSAGE_TYPE_SERVICE_RESPONSE, CHPP_MESSAGE_TYPE_SERVICE_NOTIFICATION]
    · by_cases t1 : ty = CHPP_MESSAGE_TYPE_CLIENT_NOTIFICATION
      · simp [chppDatagramLenIsOk, hpml, h1, hls, hrr, h0, t0, t1,
          chppProcessPredefinedClientNotification, isDispatchEvent,
          CHPP_MESSAGE_TYPE_CLIENT_REQUEST, CHPP_MESSAGE_TYPE_CLIENT_NOTIFICATION,
          CHPP_MESSAGE_TYPE_SERVICE_RESPONSE, CHPP_MESSAGE_TYPE_SERVICE_NOTIFICATION]
      · by_cases t2 : ty = CHPP_MESSAGE_TYPE_SERVICE_RESPONSE
        · simp [chppDatagramLenIsOk, hpml, h1, hls, hrr, h0, t0, t1, t2,
            chppProcessPredefinedServiceResponse, hl, hd, isDispatchEvent,
            CHPP_MESSAGE_TYPE_CLIENT_REQUEST, CHPP_MESSAGE_TYPE_CLIENT_NOTIFICATION,
            CHPP_MESSAGE_TYPE_SERVICE_RESPONSE, CHPP_MESSAGE_TYPE_SERVICE_NOTIFICATION]
        · by_cases t3 : ty = CHPP_MESSAGE_TYPE_SERVICE_NOTIFICATION
          · simp [chppDatagramLenIsOk, hpml, h1, hls, hrr, h0, t0, t1, t2, t3,
              chppProcessPredefinedServiceNotification, isDispatchEvent,
              CHPP_MESSAGE_TYPE_CLIENT_REQUEST, CHPP_MESSAGE_TYPE_CLIENT_NOTIFICATION,
              CHPP_MESSAGE_TYPE_SERVICE_RESPONSE, CHPP_MESSAGE_TYPE_SERVICE_NOTIFICATION]
          · simp [chppDatagramLenIsOk, hpml, h1, hls, hrr, h0, t0, t1, t2, t3,
              isDispatchEvent]

/-- Witness for C8 at a concrete input: handle 2 with a Client Request of
length 0 is logged as invalid and dropped with no handler invoked. -/
theorem chppClaimC8_witness :
    ChppEvent.logInvalidPredefinedHandle 2
      ∈ (chppProcessRxDatagram ⟨0, 0, []⟩ [2, 0, 0] 0).1
    ∧ ((chppProcessRxDatagram ⟨0, 0, []⟩ [2, 0, 0] 0).1).filter
        isDispatchEvent = []
    ∧ (chppProcessRxDatagram ⟨0, 0, []⟩ [2, 0, 0] 0).2 = ChppOutcome.ok :=
  chppClaimC8_invalidPredefinedHandles ⟨0, 0, []⟩ 2 0 0 [] 0 (by decide)
    (by decide) (by decide) (by decide)

/-- The trace of the dispatcher body on a nonempty buffer always begins with
the events of the length validator applied to the head byte. -/
theorem chppProcessRxDatagramBody_lenIsOk_first (st : ChppAppState)
    (hb : Nat) (rest : List Nat) (len : Nat) :
    (chppDatagramLenIsOk st hb len).1
      <+: (chppProcessRxDatagramBody st (hb :: rest) len).1 := by
  unfold chppProcessRxDatagramBody
  simp only [List.getElem?_cons_zero]
  rcases hr : (chppDatagramLenIsOk st hb len).2 with _ | b
  · simp only [hr]
    exact List.prefix_rfl
  · cases b
    · simp only [hr]
      exact List.prefix_rfl
    · simp only [hr]
      repeat' split
      all_goals
        simp only [List.append_assoc]
      all_goals
        first
        | exact List.prefix_rfl
        | exact List.prefix_append _ _

/-- C10: chppProcessRxDatagram reads the handle byte buf[0] on every call
before any length validation: with an empty readable buffer the run is
undefined behavior whatever the reported length (even 0), and with a nonempty
buffer the events of the length validator applied to the already-read head
byte and the reported length are always a prefix of the trace. -/
theorem chppClaimC10_handleReadBeforeLengthCheck :
    (∀ (st : ChppAppState) (len : Nat),
      (chppProcessRxDatagram st ([] : List Nat) len).2 = ChppOutcome.ub)
    ∧ (∀ (st : ChppAppState) (hb : Nat) (rest : List Nat) (len : Nat),
      (chppDatagramLenIsOk st hb len).1
        <+: (chppProcessRxDatagram st (hb :: rest) len).1) := by
  constructor
  · intro st len
    rfl
  · intro st hb rest len
    have hbody := chppProcessRxDatagramBody_lenIsOk_first st hb rest len
    unfold chppProcessRxDatagram
    rcases hout : (chppProcessRxDatagramBody st (hb :: rest) len).2 with _ | _
    · simp only [hout]
      exact hbody.trans (List.prefix_append _ _)
    · simp only [hout]
      exact hbody

/-- hexVal inverts hexDigit on digit values. -/
theorem hexVal_hexDigit (x : Nat) (hx : x < 16) : hexVal (hexDigit x) = some x := by
  have hall : ∀ y, y < 16 → hexVal (hexDigit y) = some y := by decide
  exact hall x hx

/-- hexPairVal inverts the two-digit %02x rendering of one byte. -/
theorem hexPairVal_hexDigit (b : Nat) (hb : b < 256) :
    hexPairVal (hexDigit (b / 16)) (hexDigit (b % 16)) = some b := by
  have h1 : b / 16 < 16 := by omega
  have h2 : b % 16 < 16 := by omega
  unfold hexPairVal
  rw [hexVal_hexDigit _ h1, hexVal_hexDigit _ h2]
  show some (16 * (b / 16) + b % 16) = some b
  rw [Nat.div_add_mod]

/-- chppUuidToStr is lossless on 16-byte inputs: the reference decoder
recovers the input bytes, and the output is exactly 36 characters. -/
theorem chppUuidToStr_roundTrip (u : List Nat) (hu : u.length = 16)
    (hb : ∀ b ∈ u, b < 256) :
    uuidFromStr (chppUuidToStr u) = some u
      ∧ (chppUuidToStr u).length = 36 := by
  rcases u with _ | ⟨b0, _ | ⟨b1, _ | ⟨b2, _ | ⟨b3, _ | ⟨b4, _ | ⟨b5, _ | ⟨b6, _ | ⟨b7, _ | ⟨b8, _ | ⟨b9, _ | ⟨b10, _ | ⟨b11, _ | ⟨b12, _ | ⟨b13, _ | ⟨b14, _ | ⟨b15, _ | ⟨b16, u⟩⟩⟩⟩⟩⟩⟩⟩⟩⟩⟩⟩⟩⟩⟩⟩⟩
  all_goals try (exfalso; revert hu; simp; done)
  have B0 : b0 < 256 := hb b0 (by simp)
  have B1 : b1 < 256 := hb b1 (by simp)
  have B2 : b2 < 256 := hb b2 (by simp)
  have B3 : b3 < 256 := hb b3 (by simp)
  have B4 : b4 < 256 := hb b4 (by simp)
  have B5 : b5 < 256 := hb b5 (by simp)
  have B6 : b6 < 256 := hb b6 (by simp)
  have B7 : b7 < 256 := hb b7 (by simp)
  have B8 : b8 < 256 := hb b8 (by simp)
  have B9 : b9 < 256 := hb b9 (by simp)
  have B10 : b10 < 256 := hb b10 (by simp)
  have B11 : b11 < 256 := hb b11 (by simp)
  have B12 : b12 < 256 := hb b12 (by simp)
  have B13 : b13 < 256 := hb b13 (by simp)
  have B14 : b14 < 256 := hb b14 (by simp)
  have B15 : b15 < 256 := hb b15 (by simp)
  constructor
  · simp only [chppUuidToStr, hex2, List.getD_cons_zero, List.getD_cons_succ,
      List.cons_append, List.nil_append, uuidFromStr]
    simp only [hexPairVal_hexDigit b0 B0, hexPairVal_hexDigit b1 B1,
      hexPairVal_hexDigit b2 B2, hexPairVal_hexDigit b3 B3,
      hexPairVal_hexDigit b4 B4, hexPairVal_hexDigit b5 B5,
      hexPairVal_hexDigit b6 B6, hexPairVal_hexDigit b7 B7,
      hexPairVal_hexDigit b8 B8, hexPairVal_hexDigit b9 B9,
      hexPairVal_hexDigit b10 B10, hexPairVal_hexDigit b11 B11,
      hexPairVal_hexDigit b12 B12, hexPairVal_hexDigit b13 B13,
      hexPairVal_hexDigit b14 B14, hexPairVal_hexDigit b15 B15]
    simp
  · simp [chppUuidToStr, hex2, String.length]

/-- C9: chppUuidToStr is deterministic and injective on 16-byte inputs: the
output is the 36-character dashed lowercase hexadecimal rendering accepted by
the reference decoder uuidFromStr, which recovers the input bytes in order,
so distinct inputs yield distinct strings. -/
theorem chppClaimC9_uuidFormatterLossless (u v : List Nat)
    (hu : u.length = 16) (hub : ∀ b ∈ u, b < 256)
    (hv : v.length = 16) (hvb : ∀ b ∈ v, b < 256) :
    uuidFromStr (chppUuidToStr u) = some u
    ∧ (chppUuidToStr u).length = 36
    ∧ (chppUuidToStr u = chppUuidToStr v → u = v) := by
  obtain ⟨r1, r2⟩ := chppUuidToStr_roundTrip u hu hub
  obtain ⟨r1v, _⟩ := chppUuidToStr_roundTrip v hv hvb
  refine ⟨r1, r2, fun heq => ?_⟩
  have h2 : some u = some v := by
    rw [← r1, heq, r1v]
  exact Option.some.inj h2

/-- Witness for C9 at concrete inputs: the canonical sample bytes round-trip
through the formatter and decoder, the output has 36 characters, and equality
of outputs forces equality of inputs. -/
theorem chppClaimC9_witness :
    uuidFromStr (chppUuidToStr
        [0, 17, 34, 51, 68, 85, 102, 119, 136, 153, 170, 187, 204, 221, 238,
          255])
      = some [0, 17, 34, 51, 68, 85, 102, 119, 136, 153, 170, 187, 204, 221,
          238, 255]
    ∧ (chppUuidToStr
        [0, 17, 34, 51, 68, 85, 102, 119, 136, 153, 170, 187, 204, 221, 238,
          255]).length = 36
    ∧ (chppUuidToStr
          [0, 17, 34, 51, 68, 85, 102, 119, 136, 153, 170, 187, 204, 221,
            238, 255]
        = chppUuidToStr [1, 2, 3, 4, 5, 6, 7, 8, 9, 10, 11, 12, 13, 14, 15, 16]
      → [0, 17, 34, 51, 68, 85, 102, 119, 136, 153, 170, 187, 204, 221, 238,
          255]
        = [1, 2, 3, 4, 5, 6, 7, 8, 9, 10, 11, 12, 13, 14, 15, 16]) :=
  chppClaimC9_uuidFormatterLossless
    [0, 17, 34, 51, 68, 85, 102, 119, 136, 153, 170, 187, 204, 221, 238, 255]
    [1, 2, 3, 4, 5, 6, 7, 8, 9, 10, 11, 12, 13, 14, 15, 16]
    (by decide) (by decide) (by decide) (by decide)

/-- The canonical reference rendering of the sample identifier bytes 00 11 22
33 44 55 66 77 88 99 aa bb cc dd ee ff: exact dashed lowercase grouping. -/
theorem chppUuidToStr_canonical :
    chppUuidToStr
        [0, 17, 34, 51, 68, 85, 102, 119, 136, 153, 170, 187, 204, 221, 238,
          255]
      = "00112233-4455-6677-8899-aabbccddeeff" := by decide
